import Mathlib

/-!
Shallow embedding of the core of the UK Economic Insight Agent
(`src/orchestrator.py`, `src/data_ingestion.py`, `app.py`), together with
theorems checking the specification's claims about it.

The vector index, the LLM completion call and the `datetime` library are
opaque external collaborators; they appear as explicit parameters
(a search function, a completion function, conversion functions), while all
control flow, filters, sorting, sentinels and metadata construction are
translated from the Python source.
-/

namespace UkEcon

/-- A retrievable evidence chunk: a langchain `Document` restricted to the
metadata keys this code base reads (`type`, `timestamp`, `title`, `source`,
`date`, `entities`).  Every key may be absent, since the source reads them
through `metadata.get` with defaults. -/
structure Chunk where
  page_content : String
  type : Option String
  timestamp : Option Int
  title : Option String
  source : Option String
  date : Option String
  entities : Option String
deriving DecidableEq

/-- `doc.metadata.get("timestamp", 0)`. -/
def tsD (c : Chunk) : Int := c.timestamp.getD 0

/-- `doc.metadata.get("title", "Unknown")`. -/
def titleD (c : Chunk) : String := c.title.getD "Unknown"

/-- The Chroma `where` filters this code base constructs: equality on the
`type` metadata key, strict `$gt` comparison on the `timestamp` key, and
`$and` conjunction.  A document lacking the filtered key never matches. -/
inductive FilterExpr where
  | eqType (v : String)
  | gtTimestamp (t : Int)
  | and (f g : FilterExpr)
deriving DecidableEq

def matchesFilter : FilterExpr → Chunk → Bool
  | .eqType v, c => c.type == some v
  | .gtTimestamp t, c =>
      match c.timestamp with
      | none => false
      | some ts => t < ts
  | .and f g, c => matchesFilter f c && matchesFilter g c

/-- The vector store: `similarity_search(query, k, filter)`, whose result
order is the store's own opaque similarity ranking. -/
structure VectorStore where
  search : String → Nat → Option FilterExpr → List Chunk

/-- The store guarantee that a filtered `similarity_search` returns only
matching documents. -/
def StoreFilters (vs : VectorStore) : Prop :=
  ∀ q k f c, c ∈ vs.search q k (some f) → matchesFilter f c = true

/-- The store guarantee that `similarity_search` returns at most `k`
results. -/
def StoreBounded (vs : VectorStore) : Prop :=
  ∀ q k f, (vs.search q k f).length ≤ k

/-- The variable assignment each LangChain prompt template of
`src/prompts.py` is invoked with. -/
inductive LLMInput where
  | router (question : String)
  | trend (old_context new_context topic : String)
  | fact (context chat_history question date : String)
  | summary (text : String)
deriving DecidableEq

/-- The opaque LLM completion: `prompt | llm | StrOutputParser()` applied to
a variable assignment.  `Except.error` models a raised transport or auth
exception. -/
abbrev LLM : Type := LLMInput → Except Unit String

def prefixChars : List Char → List Char → Bool
  | [], _ => true
  | _ :: _, [] => false
  | a :: as, b :: bs => a == b && prefixChars as bs

def containsChars (pat : List Char) : List Char → Bool
  | [] => prefixChars pat []
  | c :: cs => prefixChars pat (c :: cs) || containsChars pat cs

/-- Python substring containment `pat in s`: some suffix of `s` starts with
`pat` (the empty pattern is contained everywhere). -/
def pyContains (s pat : String) : Bool :=
  containsChars pat.data s.data

def dropLeadingWs : List Char → List Char
  | [] => []
  | c :: cs => if c.isWhitespace then dropLeadingWs cs else c :: cs

/-- Python `str.strip()`: drop whitespace from both ends. -/
def pyStrip (s : String) : String :=
  ⟨(dropLeadingWs (dropLeadingWs s.data.reverse).reverse)⟩

/-- The label loop of `classify_intent`: the first of the four labels
contained in the stripped response wins, in the fixed order; if none is
contained the loop falls through to FACT_LOOKUP. -/
def classify_core (current_intent : String) : String :=
  if pyContains current_intent "FACT_LOOKUP" then "FACT_LOOKUP"
  else if pyContains current_intent "TREND_ANALYSIS" then "TREND_ANALYSIS"
  else if pyContains current_intent "SUMMARY" then "SUMMARY"
  else if pyContains current_intent "GENERAL" then "GENERAL"
  else "FACT_LOOKUP"

/-- `classify_intent` of src/orchestrator.py.  `llm = none` models a missing
GROQ_API_KEY; a raised LLM exception is caught by the bare `except` and also
defaults to FACT_LOOKUP. -/
def classify_intent (llm : Option LLM) (query : String) : String :=
  match llm with
  | none => "FACT_LOOKUP"
  | some l =>
      match l (.router query) with
      | .error _ => "FACT_LOOKUP"
      | .ok resp => classify_core (pyStrip resp)

/-- One insertion step of the stable descending-by-timestamp sort. -/
def insertTsDesc (c : Chunk) : List Chunk → List Chunk
  | [] => [c]
  | d :: ds => if tsD d ≤ tsD c then c :: d :: ds else d :: insertTsDesc c ds

/-- Python `docs.sort(key=lambda x: x.metadata.get("timestamp", 0),
reverse=True)`: the stable sort placing larger timestamps first and keeping
the original order on equal timestamps (an earlier element is inserted in
front of later elements with an equal key). -/
def pySortTsDesc (l : List Chunk) : List Chunk := l.foldr insertTsDesc []

/-- The `analyze_trend` report search term: the query when nontrivial
(nonempty and longer than 10 characters), else the fixed global term. -/
def trendSearchTerm (query : String) : String :=
  if query != "" && decide (query.length > 10) then query
  else "market report economy"

/-- The `analyze_trend` news search term. -/
def trendNewsTerm (query : String) : String :=
  if query != "" && decide (query.length > 10) then query
  else "economy inflation"

/-- The anchor pair `(old_context, last_report_time)` computed by
`analyze_trend` from the retrieved past reports: sort descending by
timestamp and take the head; an empty retrieval gives the sentinel text and
the epoch 0. -/
def anchorOf (past_reports : List Chunk) : String × Int :=
  match pySortTsDesc past_reports with
  | [] => ("No past reports found.", 0)
  | latest :: _ => (latest.page_content, tsD latest)

/-- The Chroma filter `analyze_trend` passes when retrieving recent news:
`type == "news_chunk" AND timestamp > last_report_time`. -/
def newsFilter (last_report_time : Int) : FilterExpr :=
  .and (.eqType "news_chunk") (.gtTimestamp last_report_time)

/-- The past-report retrieval of `analyze_trend` (k = 10, type filter). -/
def trendPastReports (vs : VectorStore) (query : String) : List Chunk :=
  vs.search (trendSearchTerm query) 10 (some (.eqType "report"))

/-- The anchor time `last_report_time` used by `analyze_trend`. -/
def trendAnchorTime (vs : VectorStore) (query : String) : Int :=
  (anchorOf (trendPastReports vs query)).2

/-- The recent-news retrieval of `analyze_trend` (k = 5, conjunctive
filter on type and timestamp). -/
def trendRecentNews (vs : VectorStore) (query : String) : List Chunk :=
  vs.search (trendNewsTerm query) 5 (some (newsFilter (trendAnchorTime vs query)))

/-- `analyze_trend` of src/orchestrator.py.  Unlike the other handlers it
has no `if not llm` guard: with the credential absent the chain expression
`TREND_PROMPT | None | StrOutputParser()` raises a TypeError, modelled by
`Except.error`. -/
def analyze_trend (llm : Option LLM) (vs : VectorStore) (query : String) :
    Except Unit String :=
  let old_context := (anchorOf (trendPastReports vs query)).1
  let new_context :=
    String.intercalate "\n" ((trendRecentNews vs query).map Chunk.page_content)
  match llm with
  | none => .error ()
  | some l => l (.trend old_context new_context (trendSearchTerm query))

/-- `lookup_facts` of src/orchestrator.py, paired with the number of LLM
invocations made.  `today` models `datetime.now().strftime("%Y-%m-%d")`. -/
def lookup_facts (llm : Option LLM) (vs : VectorStore)
    (query chat_history today : String) : Except Unit String × Nat :=
  match llm with
  | none => (.ok "Please enter your Groq API Key first.", 0)
  | some l =>
      let docs := vs.search query 5 none
      if docs.isEmpty then
        (.ok "I cannot find information in my database to answer that right now.", 0)
      else
        let context_text := String.intercalate "\n\n" (docs.map Chunk.page_content)
        (l (.fact context_text chat_history query today), 1)

/-- The broad news retrieval of `generate_report` (k = 20, type filter). -/
def reportQueryDocs (vs : VectorStore) : List Chunk :=
  vs.search "UK Economy market updates" 20 (some (.eqType "news_chunk"))

/-- `recent_docs` of `generate_report`: sort descending by timestamp, take
the top 10. -/
def reportRecentDocs (vs : VectorStore) : List Chunk :=
  (pySortTsDesc (reportQueryDocs vs)).take 10

/-- The `combined_text` handed to the summary prompt: each chunk prefixed
with its title. -/
def combinedText (docs : List Chunk) : String :=
  String.intercalate "\n\n"
    (docs.map fun doc => "Title: " ++ titleD doc ++ "\n" ++ doc.page_content)

/-- `generate_report` of src/orchestrator.py. -/
def generate_report (llm : Option LLM) (vs : VectorStore) : Except Unit String :=
  match llm with
  | none => .ok "Please enter your Groq API Key first."
  | some l =>
      if (reportRecentDocs vs).isEmpty then
        .ok "No recent news found to generate a report."
      else
        l (.summary (combinedText (reportRecentDocs vs)))

/-- Local wall-clock time as read by `datetime.now()`, to minute
resolution. -/
structure LocalTime where
  year : Nat
  month : Nat
  day : Nat
  hour : Nat
  minute : Nat
deriving DecidableEq

def pad2 (n : Nat) : String := if n < 10 then "0" ++ toString n else toString n

def pad4 (n : Nat) : String :=
  if n < 10 then "000" ++ toString n
  else if n < 100 then "00" ++ toString n
  else if n < 1000 then "0" ++ toString n
  else toString n

/-- `strftime("%Y-%m-%d_%H-%M")`. -/
def fmtYmdHM (t : LocalTime) : String :=
  pad4 t.year ++ "-" ++ pad2 t.month ++ "-" ++ pad2 t.day ++ "_" ++
    pad2 t.hour ++ "-" ++ pad2 t.minute

/-- `strftime("%Y-%m-%d")`. -/
def fmtYmd (t : LocalTime) : String :=
  pad4 t.year ++ "-" ++ pad2 t.month ++ "-" ++ pad2 t.day

/-- The `Report` chunk `save_report` re-indexes into the store. -/
def reportChunk (now : LocalTime) (nowTs : Int) (report_content : String) :
    Chunk :=
  { page_content := report_content
    type := some "report"
    timestamp := some nowTs
    title := some ("Market Report " ++ fmtYmd now)
    source := some "Agent Generated"
    date := some (fmtYmd now)
    entities := none }

/-- `save_report` of src/orchestrator.py, over an explicit filesystem (the
list of written files) and evidence store (the list of indexed chunks).
`reindex_ok = false` models `vectorstore.add_documents` raising; the
exception is caught and logged, leaving only the store unchanged.  Returns
the new filesystem, the new store and the filename returned to the
caller. -/
def save_report (now : LocalTime) (nowTs : Int) (reindex_ok : Bool)
    (report_content : String) (fs : List (String × String))
    (store : List Chunk) : List (String × String) × List Chunk × String :=
  let filename := "reports/" ++ fmtYmdHM now ++ "_Market_Report.md"
  let fs2 := fs ++ [(filename, report_content)]
  let store2 :=
    if reindex_ok then store ++ [reportChunk now nowTs report_content]
    else store
  (fs2, store2, filename)

/-- A feedparser time struct: the first six of its nine fields (year, month,
day, hour, minute, second); the ignored tail is dropped. -/
structure TimeStruct where
  year : Int
  month : Int
  day : Int
  hour : Int
  minute : Int
  second : Int
deriving DecidableEq

/-- `get_timestamp` of src/data_ingestion.py.  `structTs` models
`int(datetime(*date_struct[:6]).timestamp())`, with `none` standing for a
raised exception (invalid calendar date); `nowTs` models
`int(datetime.now().timestamp())`. -/
def get_timestamp (nowTs : Int) (structTs : TimeStruct → Option Int)
    (date_struct : Option TimeStruct) : Int :=
  match date_struct with
  | none => nowTs
  | some ds =>
      match structTs ds with
      | some t => t
      | none => nowTs

/-- `format_date` of src/data_ingestion.py.  `structDate` models
`datetime(*date_struct[:3]).strftime("%Y-%m-%d")` with `none` standing for
a raised exception; `nowDate` models `datetime.now().strftime("%Y-%m-%d")`. -/
def format_date (nowDate : String) (structDate : TimeStruct → Option String)
    (date_struct : Option TimeStruct) : String :=
  match date_struct with
  | none => nowDate
  | some ds =>
      match structDate ds with
      | some s => s
      | none => nowDate

/-- An RSS feed entry as read by `process_article`. -/
structure Entry where
  link : String
  title : String
  published_parsed : Option TimeStruct

/-- `process_article` of src/data_ingestion.py on its success path: the
article text has been downloaded and parsed, `chunker` models
`get_semantic_chunks` (the page contents of the produced documents) and
`entities_json` the spaCy entity extraction. -/
def process_article (nowTs : Int) (nowDate : String)
    (structTs : TimeStruct → Option Int)
    (structDate : TimeStruct → Option String)
    (chunker : String → List String) (entities_json : String)
    (entry : Entry) (article_text : String) : List Chunk :=
  let formatted_date := format_date nowDate structDate entry.published_parsed
  let timestamp := get_timestamp nowTs structTs entry.published_parsed
  if article_text.length < 500 then []
  else
    (chunker article_text).map fun content =>
      { page_content := content
        type := some "news_chunk"
        timestamp := some timestamp
        title := some entry.title
        source := some entry.link
        date := some formatted_date
        entities := some entities_json }

/-- `GlobalState` of app.py: the process-wide refresh clock. -/
structure GlobalState where
  last_ingestion_time : Option Int
deriving DecidableEq

/-- The due check of `run_periodic_ingestion`: never run, or more than one
hour (3600 seconds) elapsed since the last run. -/
def isDue (state : GlobalState) (now : Int) : Bool :=
  match state.last_ingestion_time with
  | none => true
  | some t => now - t > 3600

/-- The state transition of `run_periodic_ingestion` at wall-clock `now`:
the new state, plus whether ingestion was triggered. -/
def run_periodic_ingestion (state : GlobalState) (now : Int) :
    GlobalState × Bool :=
  if isDue state now then ({ last_ingestion_time := some now }, true)
  else (state, false)

/-- `manual_refresh` of app.py: reset the shared timestamp to unset, then
run the periodic check immediately. -/
def manual_refresh (state : GlobalState) (now : Int) : GlobalState × Bool :=
  run_periodic_ingestion { state with last_ingestion_time := none } now

/-! ### Helper lemmas about the stable descending sort -/

theorem insertTsDesc_perm (c : Chunk) (l : List Chunk) :
    (insertTsDesc c l).Perm (c :: l) := by
  induction l with
  | nil => simp [insertTsDesc]
  | cons d ds ih =>
      simp only [insertTsDesc]
      split
      · exact List.Perm.refl _
      · exact (ih.cons d).trans (List.Perm.swap c d ds)

theorem pySortTsDesc_perm (l : List Chunk) : (pySortTsDesc l).Perm l := by
  induction l with
  | nil => rfl
  | cons a l ih =>
      simp only [pySortTsDesc, List.foldr_cons]
      exact (insertTsDesc_perm a _).trans (ih.cons a)

theorem pairwise_insertTsDesc (c : Chunk) (l : List Chunk)
    (h : l.Pairwise (fun a b => tsD b ≤ tsD a)) :
    (insertTsDesc c l).Pairwise (fun a b => tsD b ≤ tsD a) := by
  induction l with
  | nil => simp [insertTsDesc]
  | cons d ds ih =>
      rcases List.pairwise_cons.mp h with ⟨hd, hds⟩
      by_cases hc : tsD d ≤ tsD c
      · simp only [insertTsDesc, if_pos hc]
        refine List.pairwise_cons.mpr ⟨?_, h⟩
        intro b hb
        rcases List.mem_cons.mp hb with rfl | hb2
        · exact hc
        · exact le_trans (hd b hb2) hc
      · simp only [insertTsDesc, if_neg hc]
        refine List.pairwise_cons.mpr ⟨?_, ih hds⟩
        intro b hb
        rcases List.mem_cons.mp ((insertTsDesc_perm c ds).mem_iff.mp hb) with rfl | hb2
        · exact le_of_lt (lt_of_not_le hc)
        · exact hd b hb2

theorem pairwise_pySortTsDesc (l : List Chunk) :
    (pySortTsDesc l).Pairwise (fun a b => tsD b ≤ tsD a) := by
  induction l with
  | nil => simp [pySortTsDesc]
  | cons a l ih =>
      simp only [pySortTsDesc, List.foldr_cons]
      exact pairwise_insertTsDesc a _ ih

theorem pySortTsDesc_eq_nil_iff (l : List Chunk) :
    pySortTsDesc l = [] ↔ l = [] := by
  constructor
  · intro h
    have hp := pySortTsDesc_perm l
    rw [h] at hp
    exact (hp.symm).eq_nil
  · intro h
    subst h
    rfl

/-- The anchor of a non-empty report list is an element attaining the
maximum timestamp. -/
theorem anchorOf_max (l : List Chunk) (hne : l ≠ []) :
    ∃ c, c ∈ l ∧ anchorOf l = (c.page_content, tsD c) ∧ ∀ d ∈ l, tsD d ≤ tsD c := by
  cases hs : pySortTsDesc l with
  | nil => exact absurd ((pySortTsDesc_eq_nil_iff l).mp hs) hne
  | cons latest rest =>
      refine ⟨latest, ?_, ?_, ?_⟩
      · exact (pySortTsDesc_perm l).mem_iff.mp (by rw [hs]; exact List.mem_cons_self _ _)
      · simp [anchorOf, hs]
      · intro d hd
        have hd2 : d ∈ pySortTsDesc l := (pySortTsDesc_perm l).mem_iff.mpr hd
        rw [hs] at hd2
        rcases List.mem_cons.mp hd2 with rfl | hd3
        · exact le_refl _
        · have hp := pairwise_pySortTsDesc l
          rw [hs] at hp
          exact (List.pairwise_cons.mp hp).1 d hd3

/-- Everything the sort keeps in the first `n` places has a timestamp at
least as large as everything past place `n`. -/
theorem pySortTsDesc_take_drop (l : List Chunk) (n : Nat) :
    ∀ a ∈ (pySortTsDesc l).take n, ∀ b ∈ (pySortTsDesc l).drop n, tsD b ≤ tsD a := by
  have hp := pairwise_pySortTsDesc l
  rw [← List.take_append_drop n (pySortTsDesc l)] at hp
  exact (List.pairwise_append.mp hp).2.2

/-! ### Concrete stores, chunks and LLMs used to instantiate the theorems -/

/-- A store whose searches all come back empty. -/
def emptyStore : VectorStore := ⟨fun _ _ _ => []⟩

def mkNews (content : String) (ts : Int) : Chunk :=
  { page_content := content
    type := some "news_chunk"
    timestamp := some ts
    title := some content
    source := none
    date := none
    entities := none }

def mkReport (content : String) (ts : Int) : Chunk :=
  { page_content := content
    type := some "report"
    timestamp := some ts
    title := none
    source := none
    date := none
    entities := none }

/-! ### The claims -/

/-- C1: in trend analysis, for every pair (anchor_time, chunk.timestamp), a
news chunk matches the "new"-context retrieval filter iff
`chunk.timestamp > anchor_time` (strict inequality); at
`chunk.timestamp = anchor_time` it is excluded; and every chunk the store
returns for that retrieval carries a timestamp strictly above the anchor
time. -/
theorem trend_news_strict_boundary (anchor ts : Int) (c : Chunk)
    (hts : c.timestamp = some ts) (hty : c.type = some "news_chunk") :
    (matchesFilter (newsFilter anchor) c = true ↔ anchor < ts)
    ∧ (ts = anchor → matchesFilter (newsFilter anchor) c = false)
    ∧ (∀ vs : VectorStore, StoreFilters vs → ∀ q, ∀ d ∈ trendRecentNews vs q,
        ∃ tsd, d.timestamp = some tsd ∧ trendAnchorTime vs q < tsd) := by
  refine ⟨?_, ?_, ?_⟩
  · simp [newsFilter, matchesFilter, hts, hty]
  · intro h
    subst h
    simp [newsFilter, matchesFilter, hts, hty]
  · intro vs hvs q d hd
    have hm := hvs _ _ _ _ hd
    simp only [newsFilter, matchesFilter, Bool.and_eq_true] at hm
    rcases hm with ⟨-, hm2⟩
    cases hdts : d.timestamp with
    | none => rw [hdts] at hm2; simp at hm2
    | some tsd =>
        rw [hdts] at hm2
        simp only [decide_eq_true_eq] at hm2
        exact ⟨tsd, rfl, hm2⟩

theorem trend_news_strict_boundary_witness :
    matchesFilter (newsFilter 5) (mkNews "n" 7) = true
    ∧ matchesFilter (newsFilter 7) (mkNews "n" 7) = false := by
  refine ⟨?_, ?_⟩
  · exact (trend_news_strict_boundary 5 7 (mkNews "n" 7) rfl rfl).1.mpr (by decide)
  · exact (trend_news_strict_boundary 7 7 (mkNews "n" 7) rfl rfl).2.1 rfl

/-- C2: for every non-empty retrieved report set the chosen anchor is a
retrieved report attaining the maximum timestamp, and its anchor time does
not depend on the order the similarity search returned the reports in; with
no retrieved reports the anchor is the sentinel text with anchor time 0,
under which every news chunk with a positive timestamp matches the
recent-news filter. -/
theorem trend_anchor_selection (l : List Chunk) :
    (l ≠ [] → ∃ c, c ∈ l ∧ anchorOf l = (c.page_content, tsD c)
      ∧ (∀ d ∈ l, tsD d ≤ tsD c)
      ∧ ∀ l2 : List Chunk, l2.Perm l → (anchorOf l2).2 = (anchorOf l).2)
    ∧ anchorOf [] = ("No past reports found.", 0)
    ∧ (∀ (c : Chunk) (ts : Int), c.type = some "news_chunk" →
        c.timestamp = some ts → 0 < ts →
        matchesFilter (newsFilter 0) c = true) := by
  refine ⟨?_, rfl, ?_⟩
  · intro hne
    rcases anchorOf_max l hne with ⟨c, hc, he, hmax⟩
    refine ⟨c, hc, he, hmax, ?_⟩
    intro l2 hp
    have hne2 : l2 ≠ [] := by
      intro h
      subst h
      exact hne hp.symm.eq_nil
    rcases anchorOf_max l2 hne2 with ⟨c2, hc2, he2, hmax2⟩
    rw [he, he2]
    exact le_antisymm (hmax c2 (hp.mem_iff.mp hc2)) (hmax2 c (hp.mem_iff.mpr hc))
  · intro c ts hty hts h0
    simp [newsFilter, matchesFilter, hty, hts, h0]

theorem trend_anchor_selection_witness :
    (∃ c, c ∈ [mkReport "r1" 3, mkReport "r2" 9]
      ∧ anchorOf [mkReport "r1" 3, mkReport "r2" 9] = (c.page_content, tsD c)
      ∧ ∀ d ∈ [mkReport "r1" 3, mkReport "r2" 9], tsD d ≤ tsD c)
    ∧ matchesFilter (newsFilter 0) (mkNews "n" 1) = true := by
  refine ⟨?_, ?_⟩
  · rcases (trend_anchor_selection [mkReport "r1" 3, mkReport "r2" 9]).1
      (by decide) with ⟨c, h1, h2, h3, -⟩
    exact ⟨c, h1, h2, h3⟩
  · exact (trend_anchor_selection []).2.2 (mkNews "n" 1) 1 rfl rfl (by decide)

/-- C3, counterexample: with the LLM credential absent, `analyze_trend` is
not degraded to a guidance-text response: it has no credential guard, so the
chain composition `TREND_PROMPT | None | StrOutputParser()` raises a
TypeError, modelled by `Except.error`. -/
theorem analyze_trend_no_key_raises :
    analyze_trend none emptyStore "how has inflation trended?" =
      Except.error () := rfl

/-- C3, amended: with the LLM credential absent, classify_intent returns the
fixed default label, lookup_facts and generate_report return the fixed
guidance text without raising and with no LLM call, while analyze_trend
(which has no credential guard) raises. -/
theorem no_key_degradation (vs : VectorStore) (q hist today : String) :
    classify_intent none q = "FACT_LOOKUP"
    ∧ lookup_facts none vs q hist today =
        (.ok "Please enter your Groq API Key first.", 0)
    ∧ generate_report none vs = .ok "Please enter your Groq API Key first."
    ∧ analyze_trend none vs q = .error () :=
  ⟨rfl, rfl, rfl, rfl⟩

def c4LLM : LLM := fun _ => .ok "The right mode is TREND_ANALYSIS"

/-- C4, counterexample: a raw router response that is not exactly any of the
four known labels, for which classify_intent nevertheless returns
TREND_ANALYSIS rather than FACT_LOOKUP: the code matches labels by substring
containment, not exact equality. -/
theorem classify_not_exact_counterexample :
    ("The right mode is TREND_ANALYSIS" ≠ "FACT_LOOKUP"
      ∧ "The right mode is TREND_ANALYSIS" ≠ "TREND_ANALYSIS"
      ∧ "The right mode is TREND_ANALYSIS" ≠ "SUMMARY"
      ∧ "The right mode is TREND_ANALYSIS" ≠ "GENERAL")
    ∧ classify_intent (some c4LLM) "q" = "TREND_ANALYSIS" := by
  exact ⟨by decide, by decide⟩

/-- C4, amended: whenever the LLM is unavailable or errors, or its stripped
raw response contains none of the four known labels as a substring (so in
particular the empty string, or a hallucinated label unrelated to the four),
classify_intent returns FACT_LOOKUP. -/
theorem classify_default_fact_lookup (q : String) :
    classify_intent none q = "FACT_LOOKUP"
    ∧ (∀ l : LLM, l (.router q) = .error () →
        classify_intent (some l) q = "FACT_LOOKUP")
    ∧ (∀ (l : LLM) (raw : String), l (.router q) = .ok raw →
        pyContains (pyStrip raw) "FACT_LOOKUP" = false →
        pyContains (pyStrip raw) "TREND_ANALYSIS" = false →
        pyContains (pyStrip raw) "SUMMARY" = false →
        pyContains (pyStrip raw) "GENERAL" = false →
        classify_intent (some l) q = "FACT_LOOKUP") := by
  refine ⟨rfl, ?_, ?_⟩
  · intro l hl
    simp [classify_intent, hl]
  · intro l raw hl h1 h2 h3 h4
    simp [classify_intent, hl, classify_core, h1, h2, h3, h4]

def c4wLLM : LLM := fun _ => .ok ""

theorem classify_default_fact_lookup_witness :
    classify_intent (some c4wLLM) "hm" = "FACT_LOOKUP" :=
  (classify_default_fact_lookup "hm").2.2 c4wLLM "" rfl
    (by decide) (by decide) (by decide) (by decide)

/-- C5: when retrieval comes back empty, lookup_facts returns the fixed
not-found sentinel and makes zero LLM calls. -/
theorem lookup_facts_empty_short_circuit (l : LLM) (vs : VectorStore)
    (q hist today : String) (h : vs.search q 5 none = []) :
    lookup_facts (some l) vs q hist today =
      (.ok "I cannot find information in my database to answer that right now.", 0) := by
  simp [lookup_facts, h]

def c5LLM : LLM := fun _ => .ok "an answer"

theorem lookup_facts_empty_short_circuit_witness :
    lookup_facts (some c5LLM) emptyStore "what is CPI?" "" "2026-10-12" =
      (.ok "I cannot find information in my database to answer that right now.", 0) :=
  lookup_facts_empty_short_circuit c5LLM emptyStore "what is CPI?" "" "2026-10-12" rfl

/-- C6: a manual force-refresh resets the shared clock to unset, so the very
next due check observes Due and triggers ingestion, independent of the
elapsed time; afterwards the clock holds the new run time. -/
theorem manual_refresh_always_due (state : GlobalState) (now : Int) :
    ({ state with last_ingestion_time := none } : GlobalState).last_ingestion_time
        = none
    ∧ isDue { state with last_ingestion_time := none } now = true
    ∧ (manual_refresh state now).2 = true
    ∧ (manual_refresh state now).1.last_ingestion_time = some now :=
  ⟨rfl, rfl, rfl, rfl⟩

/-- C7: generate_report retrieves up to 20 news chunks with the fixed broad
query, sorts them descending by timestamp, truncates to the 10 most recent,
returns the fixed no-recent-news message exactly when the retrieval is
empty, and otherwise hands the LLM the title-prefixed text of the 10
highest-timestamp chunks (every kept chunk has a timestamp at least as
large as every dropped one). -/
theorem generate_report_recent_ten (l : LLM) (vs : VectorStore)
    (hb : StoreBounded vs) :
    (reportQueryDocs vs).length ≤ 20
    ∧ (reportQueryDocs vs = [] →
        generate_report (some l) vs =
          .ok "No recent news found to generate a report.")
    ∧ (reportQueryDocs vs ≠ [] →
        generate_report (some l) vs =
          l (.summary (combinedText (reportRecentDocs vs))))
    ∧ (∀ a ∈ reportRecentDocs vs, a ∈ reportQueryDocs vs)
    ∧ (reportRecentDocs vs).length ≤ 10
    ∧ (∀ a ∈ reportRecentDocs vs,
        ∀ b ∈ (pySortTsDesc (reportQueryDocs vs)).drop 10, tsD b ≤ tsD a) := by
  refine ⟨hb _ _ _, ?_, ?_, ?_, ?_, ?_⟩
  · intro h
    simp [generate_report, reportRecentDocs, h, pySortTsDesc]
  · intro h
    have hs : pySortTsDesc (reportQueryDocs vs) ≠ [] :=
      fun hnil => h ((pySortTsDesc_eq_nil_iff _).mp hnil)
    have hne : (reportRecentDocs vs).isEmpty = false := by
      cases hc : pySortTsDesc (reportQueryDocs vs) with
      | nil => exact absurd hc hs
      | cons x xs => simp [reportRecentDocs, hc]
    simp [generate_report, hne]
  · intro a ha
    exact (pySortTsDesc_perm _).mem_iff.mp (List.take_subset _ _ ha)
  · have h := List.length_take 10 (pySortTsDesc (reportQueryDocs vs))
    simp only [reportRecentDocs]
    omega
  · exact fun a ha b hbmem => pySortTsDesc_take_drop _ 10 a ha b hbmem

def c7Chunks : List Chunk := [mkNews "older" 3, mkNews "newer" 9]

/-- A store returning a prefix of a fixed chunk list, of length at most
`k`. -/
def c7Store : VectorStore := ⟨fun _ k _ => c7Chunks.take k⟩

theorem c7Store_bounded : StoreBounded c7Store := by
  intro q k f
  show (c7Chunks.take k).length ≤ k
  exact List.length_take_le k c7Chunks

def c7LLM : LLM := fun _ => .ok "report body"

theorem generate_report_recent_ten_witness :
    generate_report (some c7LLM) c7Store =
      c7LLM (.summary (combinedText (reportRecentDocs c7Store))) :=
  (generate_report_recent_ten c7LLM c7Store c7Store_bounded).2.2.1 (by decide)

/-- C8: save_report writes the report under the timestamped path pattern
`reports/YYYY-MM-DD_HH-MM_Market_Report.md` and returns that path; a failed
re-indexing into the evidence store is caught, leaving only the store
unchanged, and the path is still written and returned. -/
theorem save_report_path_and_swallow (now : LocalTime) (nowTs : Int)
    (content : String) (fs : List (String × String)) (store : List Chunk)
    (rb : Bool) :
    (save_report now nowTs rb content fs store).2.2 =
      "reports/" ++ fmtYmdHM now ++ "_Market_Report.md"
    ∧ (save_report now nowTs rb content fs store).1 =
        fs ++ [("reports/" ++ fmtYmdHM now ++ "_Market_Report.md", content)]
    ∧ (save_report now nowTs true content fs store).2.2 =
        (save_report now nowTs false content fs store).2.2
    ∧ (save_report now nowTs false content fs store).2.1 = store
    ∧ (save_report now nowTs true content fs store).2.1 =
        store ++ [reportChunk now nowTs content] :=
  ⟨rfl, rfl, rfl, rfl, rfl⟩

/-- C9: every chunk written to the evidence store has its timestamp
populated with an integer: each ingested news chunk carries
`get_timestamp`, which falls back to the ingestion time when the source
omits a publish date or its parse raises, and each re-indexed report
carries the current time. -/
theorem timestamp_always_populated (nowTs : Int) (nowDate : String)
    (structTs : TimeStruct → Option Int)
    (structDate : TimeStruct → Option String)
    (chunker : String → List String) (ej : String) (entry : Entry)
    (text : String) (now : LocalTime) (content : String) :
    (∀ c ∈ process_article nowTs nowDate structTs structDate chunker ej entry text,
        c.timestamp = some (get_timestamp nowTs structTs entry.published_parsed))
    ∧ (reportChunk now nowTs content).timestamp = some nowTs
    ∧ get_timestamp nowTs structTs none = nowTs
    ∧ (∀ ds, structTs ds = none →
        get_timestamp nowTs structTs (some ds) = nowTs) := by
  refine ⟨?_, rfl, rfl, ?_⟩
  · intro c hc
    simp only [process_article] at hc
    split at hc
    · simp at hc
    · rcases List.mem_map.mp hc with ⟨content2, -, rfl⟩
      rfl
  · intro ds h
    simp [get_timestamp, h]

def c9Entry : Entry :=
  { link := "http://example.org/a", title := "t", published_parsed := none }

/-- An invalid calendar date (February 30th), whose datetime conversion
raises. -/
def c9Struct : TimeStruct := ⟨2026, 2, 30, 0, 0, 0⟩

theorem timestamp_always_populated_witness :
    get_timestamp 1700000000 (fun _ => none) none = 1700000000
    ∧ get_timestamp 1700000000 (fun _ => none) (some c9Struct) = 1700000000 := by
  have h := timestamp_always_populated 1700000000 "2026-10-12" (fun _ => none)
    (fun _ => none) (fun _ => []) "" c9Entry "" ⟨2026, 10, 12, 5, 0⟩ ""
  exact ⟨h.2.2.1, h.2.2.2 c9Struct rfl⟩

/-- C10: an article whose extracted text is shorter than 500 characters
yields zero chunks, while text of 500 or more characters proceeds to
chunking, producing one metadata-tagged news chunk per semantic chunk. -/
theorem short_article_skipped (nowTs : Int) (nowDate : String)
    (structTs : TimeStruct → Option Int)
    (structDate : TimeStruct → Option String)
    (chunker : String → List String) (ej : String) (entry : Entry)
    (text : String) :
    (text.length < 500 →
        process_article nowTs nowDate structTs structDate chunker ej entry text
          = [])
    ∧ (500 ≤ text.length →
        process_article nowTs nowDate structTs structDate chunker ej entry text
          = (chunker text).map fun content =>
              { page_content := content
                type := some "news_chunk"
                timestamp :=
                  some (get_timestamp nowTs structTs entry.published_parsed)
                title := some entry.title
                source := some entry.link
                date :=
                  some (format_date nowDate structDate entry.published_parsed)
                entities := some ej }) := by
  constructor
  · intro h
    simp only [process_article]
    rw [if_pos h]
  · intro h
    simp only [process_article]
    rw [if_neg (Nat.not_lt.mpr h)]

def c10Long : String := String.mk (List.replicate 500 'a')

theorem short_article_skipped_witness :
    process_article 0 "d" (fun _ => none) (fun _ => none) (fun t => [t]) ""
        c9Entry "tiny" = []
    ∧ process_article 0 "d" (fun _ => none) (fun _ => none) (fun t => [t]) ""
        c9Entry c10Long ≠ [] := by
  have hlen : 500 ≤ c10Long.length := by
    show 500 ≤ c10Long.data.length
    rw [show c10Long.data = List.replicate 500 'a' from rfl, List.length_replicate]
  constructor
  · exact (short_article_skipped 0 "d" (fun _ => none) (fun _ => none)
      (fun t => [t]) "" c9Entry "tiny").1 (by decide)
  · rw [(short_article_skipped 0 "d" (fun _ => none) (fun _ => none)
      (fun t => [t]) "" c9Entry c10Long).2 hlen]
    simp

end UkEcon
